import Mathlib

/-!
# Verification of the Jenkins nodes auto-scaler control loop

A shallow embedding of `src/main.go` (package `main` of
`jenkins-nodes-auto-scaler`): the capacity computation, the per-node
bring-online / take-offline orchestration, the agent-launch retry loop, the
compute status waiter, and the scale-up scanning loop, together with proofs
of the behavioural properties claimed for them.

Conventions of the embedding:
* Go values that are non-negative `int`s (queue sizes, counts) are `Nat`
  unless Go's signed arithmetic is observable, in which case `Int` is used
  (the `boxesNeeded` countdown).
* An HTTP interaction is modelled by the response the program observes:
  `none` for a transport error (`httpClient.Do` returns a non-nil error and a
  nil response), `some body` for a delivered response body.
* A fallible Go function that can panic is modelled with an `Option` result:
  `none` means the function did not return normally.
* Concurrency is modelled by the sequential order the source imposes inside a
  single node's transition (each step is a blocking call), with the outcomes
  of the external collaborators supplied as an explicit environment.
-/

namespace AutoScaler

/-! ## Capacity computation (src/main.go:152-159)

`calculateNumberOfBoxesToStart` divides the queue size by the
`workersPerBuildBox` divisor and adds 1 when the division has a remainder.
In the source the divisor is the package-level variable `workersPerBuildBox`;
here it is an explicit argument. -/

def calculateNumberOfBoxesToStart (queueSize workersPerBuildBox : Nat) : Nat :=
  let mod := if queueSize % workersPerBuildBox ≠ 0 then 1 else 0
  queueSize / workersPerBuildBox + mod

/-! ## Jenkins data model (src/main.go:22-38)

`JenkinsBuildBoxInfo` is the decoded body of `GET /computer/{box}/api/json`;
the agent is considered connected when the architecture monitor field is
present (non-null). A queue body is the list of its items, each carrying a
`buildable` flag. -/

structure JenkinsBuildBoxInfo where
  idle : Bool
  temporarilyOffline : Bool
  offline : Bool
  monitorArchitecture : Option String
  deriving DecidableEq, Repr

/-- The zero value `JenkinsBuildBoxInfo{}` that `fetchNodeInfo` returns on a
decoding error: every field false / nil. -/
def JenkinsBuildBoxInfo.zero : JenkinsBuildBoxInfo :=
  ⟨false, false, false, none⟩

structure QueueItem where
  buildable : Bool
  taskName : String
  deriving DecidableEq, Repr

/-! ## Collaborator reads (src/main.go:263-301)

Both readers issue one HTTP GET.  The response as observed by the program is
`none` when `httpClient.Do` fails (nil response), `some none` when a response
arrived but the JSON decoder errors, and `some (some body)` on a decoded
body.  Both functions execute `defer resp.Body.Close()` BEFORE checking the
request error, so a nil response makes them panic (nil pointer dereference)
instead of returning: the embedding returns `none` for that case, `some r`
when the Go function returns `r` normally. -/

def fetchNodeInfo : Option (Option JenkinsBuildBoxInfo) → Option JenkinsBuildBoxInfo
  | none => none
  | some none => some JenkinsBuildBoxInfo.zero
  | some (some data) => some data

def fetchQueueSize : Option (Option (List QueueItem)) → Option Nat
  | none => none
  | some none => some 0
  | some (some items) => some (items.countP (fun i => i.buildable))

/-! ## Per-node transition model (src/main.go:123-150, 171-194, 228-237, 303-318)

The registration state a node presents to the CI master and its compute power
state, threaded through each blocking step of a transition.  The outcomes of
the external collaborators are an explicit environment: whether each command
request succeeds (`err == nil`), whether the agent comes online within
`launchNodeAgent`'s timeout, and whether the compute get-status call
succeeds.  Reads (`isNodeIdle`, `isNodeTemporarilyOffline`,
`isAgentConnected`, `isBuildBoxRunning`) return the node's current state;
the read-failure paths are modelled separately by `fetchNodeInfo` above. -/

structure NodeState where
  idle : Bool
  temporarilyOffline : Bool
  offline : Bool
  agentConnected : Bool
  /-- compute power state is "RUNNING" -/
  running : Bool
  deriving DecidableEq, Repr, Fintype

structure Env where
  /-- the POST to `/toggleOffline` returns without error -/
  toggleSucceeds : Bool
  /-- the compute `Instances.Start` request is accepted -/
  startSucceeds : Bool
  /-- the compute `Instances.Stop` request is accepted -/
  stopSucceeds : Bool
  /-- the agent comes online within `launchNodeAgent`'s 120s timeout -/
  agentConnects : Bool
  /-- the compute `Instances.Get` status query succeeds -/
  statusKnown : Bool
  deriving DecidableEq, Repr, Fintype

/-- The outward-facing requests a transition can issue. -/
inductive Command where
  | toggle
  | start
  | stop
  | launchAgent
  deriving DecidableEq, Repr

/-- `toggleNodeStatus` (src/main.go:185-194): posts `/toggleOffline`;
Jenkins flips the maintenance flag when the request goes through.  The
returned error is whatever `httpClient.Do` produced. -/
def toggleNodeStatus (env : Env) (s : NodeState) : NodeState × List Command :=
  if env.toggleSucceeds then
    ({ s with temporarilyOffline := !s.temporarilyOffline }, [Command.toggle])
  else
    (s, [Command.toggle])

/-- `isBuildBoxRunning` (src/main.go:310-318): `false` when the get-status
query fails, otherwise whether the reported status equals "RUNNING". -/
def isBuildBoxRunning (env : Env) (s : NodeState) : Bool :=
  env.statusKnown && s.running

/-- `startBuildBox` (src/main.go:138-150): no-op when the box already
reports RUNNING; otherwise issue the start request, and on an error log and
return early (skipping `waitForStatus` and the settle sleep).  On success the
call blocks in `waitForStatus(.., "RUNNING")`, after which the box is
running. -/
def startBuildBox (env : Env) (s : NodeState) : NodeState × List Command :=
  if isBuildBoxRunning env s then
    (s, [])
  else if env.startSucceeds then
    ({ s with running := true }, [Command.start])
  else
    (s, [Command.start])

/-- Effect of `launchNodeAgent` (src/main.go:196-226) on the node: the retry
loop posts `/launchSlaveAgent` and either the agent comes online before the
timeout or the timeout fires and the node is left un-launched.  (The timing
bound of the loop is modelled separately by `launchNodeAgentReturnTime`.) -/
def launchNodeAgentEffect (env : Env) (s : NodeState) : NodeState × List Command :=
  if env.agentConnects then
    ({ s with agentConnected := true }, [Command.launchAgent])
  else
    (s, [Command.launchAgent])

/-- `startBuildBoxAsync` (src/main.go:123-136): the per-node bring-online
transition.  Each step runs unconditionally after the previous one returns;
in particular the return value of `startBuildBox` carries no error, so the
agent check and the final toggle run even when the start request failed. -/
def startBuildBoxAsync (env : Env) (s : NodeState) : NodeState × List Command :=
  let r1 := if !s.temporarilyOffline then toggleNodeStatus env s else (s, [])
  let r2 := startBuildBox env r1.1
  let r3 := if !r2.1.agentConnected then launchNodeAgentEffect env r2.1 else (r2.1, [])
  let r4 := if r3.1.temporarilyOffline then toggleNodeStatus env r3.1 else (r3.1, [])
  (r4.1, r1.2 ++ r2.2 ++ r3.2 ++ r4.2)

/-- `stopBuildBox` (src/main.go:228-237): issue the stop request; on error
log and return it, otherwise block in `waitForStatus(.., "TERMINATED")`. -/
def stopBuildBox (env : Env) (s : NodeState) : NodeState × List Command :=
  if env.stopSucceeds then
    ({ s with running := false }, [Command.stop])
  else
    (s, [Command.stop])

/-- `ensureBuildBoxIsNotRunning` (src/main.go:303-308): stop only when
`isBuildBoxRunning` reports RUNNING. -/
def ensureBuildBoxIsNotRunning (env : Env) (s : NodeState) : NodeState × List Command :=
  if isBuildBoxRunning env s then stopBuildBox env s else (s, [])

/-- `stopBuildBoxAsync` (src/main.go:171-183): the per-node take-offline
transition.  Returns immediately when the node is not idle; otherwise
toggles maintenance mode on when it is not already set — discarding
`toggleNodeStatus`'s returned error — and then unconditionally proceeds to
`ensureBuildBoxIsNotRunning`. -/
def stopBuildBoxAsync (env : Env) (s : NodeState) : NodeState × List Command :=
  if !s.idle then
    (s, [])
  else
    let r1 := if !s.temporarilyOffline then toggleNodeStatus env s else (s, [])
    let r2 := ensureBuildBoxIsNotRunning env r1.1
    (r2.1, r1.2 ++ r2.2)

/-- Environment of the C2 scenario: toggle requests go through, the compute
start request fails, and the agent never connects within the timeout. -/
def envStartFails : Env :=
  { toggleSucceeds := true, startSucceeds := false, stopSucceeds := true,
    agentConnects := false, statusKnown := true }

/-- A node in maintenance mode, hard offline, agent disconnected, powered
off — the state a crashed box presents when the scale-up pass picks it. -/
def maintenanceOfflineBox : NodeState :=
  { idle := false, temporarilyOffline := true, offline := true,
    agentConnected := false, running := false }

/-- Environment of the C5 scenario: the maintenance-toggle request fails
(CI master unreachable for that one POST), everything else succeeds. -/
def envToggleFails : Env :=
  { toggleSucceeds := false, startSucceeds := true, stopSucceeds := true,
    agentConnects := true, statusKnown := true }

/-- An idle, registered, running box — the state scale-down drains. -/
def idleRunningBox : NodeState :=
  { idle := true, temporarilyOffline := false, offline := false,
    agentConnected := true, running := true }

/-! ## Agent-launch timing (src/main.go:196-226)

Time in seconds from the invocation of `launchNodeAgent`, with every
duration other than the `isAgentConnected` round-trips abstracted to zero.
The retry goroutine's iteration `k` begins at `launchStart delay k`: it
first polls the unbuffered `quit` channel (non-blocking select with a
`default` branch), then calls `isAgentConnected`, which takes `delay k`
seconds and returns `connected k`; on `true` it sends into `onlineChannel`
(buffer size 1, so the send never blocks) and exits, otherwise it posts
`/launchSlaveAgent` and sleeps 10 s.  The enclosing `select` races the
`onlineChannel` receive against the 120 s timer.  Since every iteration
takes at least 10 s, only iterations 0..12 can begin by t = 120, so a scan
of `List.range 13` is exhaustive.

`launchNodeAgentResult` returns `some t` when `launchNodeAgent` returns at
time `t`, and `none` when it never returns: if the first successful check
began before the timer fired (so its quit poll was already past) but
completes after t = 120, the timeout branch has already fired and is
blocked on `quit <- true`; the goroutine exits through the buffered
`onlineChannel` without ever polling `quit` again, so the send — and
`launchNodeAgent` — block forever.  When no check begun before t = 120
succeeds, the pending `quit` send is received at the goroutine's next quit
poll, the first iteration start at or after t = 120.  Simultaneous
readiness at exactly t = 120 is resolved in favour of the channel
operation, i.e. toward termination. -/

def launchStart (delay : Nat → Nat) : Nat → Nat
  | 0 => 0
  | k + 1 => launchStart delay k + delay k + 10

def launchNodeAgentResult (connected : Nat → Bool) (delay : Nat → Nat) : Option Nat :=
  match (List.range 13).find?
      (fun k => connected k && decide (launchStart delay k < 120)) with
  | some k =>
    if launchStart delay k + delay k ≤ 120 then some (launchStart delay k + delay k)
    else none
  | none =>
    match (List.range 13).find? (fun j => decide (120 ≤ launchStart delay j)) with
    | some j => some (launchStart delay j)
    | none => some (launchStart delay 12)

/-- Connectivity oracle of the C4 failing input: the CI master reports the
agent connected at the check of iteration 11 and at every later one. -/
def deadlockConnected : Nat → Bool := fun k => decide (11 ≤ k)

/-- Check-duration oracle of the C4 failing input: the connecting check of
iteration 11 takes 15 s (an HTTP round-trip straddling the timeout); every
other check is instant. -/
def deadlockDelay : Nat → Nat := fun k => if k = 11 then 15 else 0

/-! ## Scale-up scanning loop (src/main.go:94-113)

`startBuildBoxes` computes `boxesNeeded` (a Go `int`, hence `Int` here),
shuffles the pool in place, and scans it: for each node reported offline it
launches a bring-online task and decrements `boxesNeeded`; after every node
it checks `boxesNeeded <= 0` and, when the countdown is exhausted, waits for
the launched tasks and returns.  If the scan runs off the end of the pool it
waits and logs "No more build boxes available to start".  The loop below
returns the number of bring-online tasks launched; `offline` is the
`isNodeOffline` read per node, and the pool argument is the scan order
(`shuffle`, src/main.go:115-121, permutes the pool in place before the scan,
which leaves the number of offline members unchanged, so the theorems
quantify over every scan order). -/

def startBuildBoxesLoop (offline : String → Bool) : List String → Int → Nat
  | [], _ => 0
  | b :: rest, needed =>
    if offline b then
      if needed - 1 ≤ 0 then 1
      else 1 + startBuildBoxesLoop offline rest (needed - 1)
    else
      if needed ≤ 0 then 0
      else startBuildBoxesLoop offline rest needed

def startBuildBoxes (offline : String → Bool) (pool : List String)
    (queueSize workersPerBuildBox : Nat) : Nat :=
  startBuildBoxesLoop offline pool
    (calculateNumberOfBoxesToStart queueSize workersPerBuildBox : Int)

/-! ## Compute status waiter (src/main.go:320-342)

`waitForStatus` polls `Instances.Get` every 3 s until the reported status
equals the target.  A query error is logged and retried (`continue`); a
successful observation is logged only when it differs from the previously
logged one (`previousStatus`, initially the empty string).  The embedding
runs the loop over a finite list of observations (`none` = query error,
`some st` = reported status) and returns `some logs` — the status log lines
emitted — when the loop returns within the trace, `none` when the trace is
exhausted with the loop still polling. -/

def waitForStatus (target : String) : List (Option String) → String → Option (List String)
  | [], _ => none
  | none :: rest, previousStatus => waitForStatus target rest previousStatus
  | some st :: rest, previousStatus =>
    let logs := if previousStatus ≠ st then [st] else []
    if st = target then some logs
    else (waitForStatus target rest st).map (fun tail => logs ++ tail)

/-! ## Flag bootstrap (src/main.go:40, 51-53)

`flag.Int("workersPerBuildBox", 2, ..)` registers the flag and returns a
pointer to a fresh cell holding the default; `flag.Parse()` later stores the
command-line value (when supplied) into that cell.  Line 51 of the source
dereferences the pointer IMMEDIATELY — before line 53 calls `flag.Parse()` —
and assigns the result to the package variable `workersPerBuildBox`.
`supplied` is the value the command line carries for the flag (`none` when
the flag is absent). -/

structure FlagCell where
  val : Int
  deriving DecidableEq, Repr

def flagIntRegister (default : Int) : FlagCell := ⟨default⟩

def flagParse (supplied : Option Int) (cell : FlagCell) : FlagCell :=
  ⟨supplied.getD cell.val⟩

/-- The value the package variable `workersPerBuildBox` holds for the rest
of the run, as a function of the command line: line 51 reads the cell before
line 53 parses, so the parsed cell is never consulted again. -/
def workersPerBuildBoxAfterStartup (supplied : Option Int) : Int :=
  let cell := flagIntRegister 2
  let workers := cell.val
  let _cellAfterParse := flagParse supplied cell
  workers

end AutoScaler

namespace AutoScaler

/-! ## Theorems -/

/-- Shared helper: the capacity computation is ceiling division. -/
theorem calc_ceilDiv_aux (q w : Nat) (hw : 1 ≤ w) :
    calculateNumberOfBoxesToStart q w = q ⌈/⌉ w := by
  have hw' : 0 < w := hw
  rw [Nat.ceilDiv_eq_add_pred_div]
  show q / w + (if q % w ≠ 0 then 1 else 0) = (q + w - 1) / w
  have hq : q + w - 1 = w * (q / w) + (q % w + w - 1) := by
    have := Nat.div_add_mod q w
    omega
  rw [hq, Nat.mul_add_div hw']
  rcases Nat.eq_zero_or_pos (q % w) with h | h
  · have h1 : (q % w + w - 1) / w = 0 := Nat.div_eq_of_lt (by omega)
    rw [h1]
    simp [h]
  · have h2 : q % w + w - 1 = (q % w - 1) + w := by omega
    have h3 : (q % w - 1) / w = 0 := by
      apply Nat.div_eq_of_lt
      have := Nat.mod_lt q hw'
      omega
    rw [h2, Nat.add_div_right _ hw', h3]
    simp [Nat.pos_iff_ne_zero.mp h]

/-- Shared helper: with a non-empty queue the capacity computation asks for
at least one box. -/
theorem one_le_calc (q w : Nat) (hq : 1 ≤ q) (hw : 1 ≤ w) :
    1 ≤ calculateNumberOfBoxesToStart q w := by
  show 1 ≤ q / w + (if q % w ≠ 0 then 1 else 0)
  rcases Nat.eq_zero_or_pos (q % w) with h | h
  · have hwq : w ≤ q := Nat.le_of_dvd hq (Nat.dvd_of_mod_eq_zero h)
    have : 1 ≤ q / w := (Nat.one_le_div_iff hw).mpr hwq
    omega
  · simp [Nat.pos_iff_ne_zero.mp h]

/-- C1: `calculateNumberOfBoxesToStart q w` is the ceiling of `q / w`
(`Nat.ceilDiv`: `(q + w - 1) / w`, the least `c` with `q ≤ w * c`) for every
`q ≥ 0` and `w ≥ 1`; in particular `q=5, w=2 ↦ 3`, `q=4, w=2 ↦ 2`,
`q=0 ↦ 0`. -/
theorem calculateNumberOfBoxesToStart_eq_ceilDiv
    (q w : Nat) (hw : 1 ≤ w) :
    calculateNumberOfBoxesToStart q w = q ⌈/⌉ w :=
  calc_ceilDiv_aux q w hw

/-- Witness for `calculateNumberOfBoxesToStart_eq_ceilDiv` at the claim's
concrete inputs. -/
theorem calculateNumberOfBoxesToStart_eq_ceilDiv_witness :
    calculateNumberOfBoxesToStart 5 2 = 3 ∧ calculateNumberOfBoxesToStart 4 2 = 2 ∧
      calculateNumberOfBoxesToStart 0 2 = 0 ∧ calculateNumberOfBoxesToStart 5 2 = 5 ⌈/⌉ 2 :=
  ⟨by decide, by decide, by decide, calculateNumberOfBoxesToStart_eq_ceilDiv 5 2 (by decide)⟩

/-- C3: the two collaborator readers degrade gracefully only on a DECODE
failure; on a transport failure (`httpClient.Do` errors, response nil) both
execute `defer resp.Body.Close()` before checking the error and panic on the
nil response instead of returning the safe default (`none` in the embedding),
so the failure is fatal to the process.  The decode-failure half of the claim
holds: a malformed body yields queue size 0 and the zero-value node info. -/
theorem fetch_transport_error_is_fatal :
    fetchQueueSize none = none ∧ fetchNodeInfo none = none ∧
      fetchQueueSize (some none) = some 0 ∧
      fetchNodeInfo (some none) = some JenkinsBuildBoxInfo.zero :=
  ⟨rfl, rfl, rfl, rfl⟩

/-- C2 counterexample: running the bring-online transition on
`maintenanceOfflineBox` when the compute start request fails and the agent
never connects ends with `temporarilyOffline = false` and
`agentConnected = false` — the node is advertised online while its agent is
not connected, which is neither of the claim's two permitted outcomes
(fully registered, or still in maintenance mode). -/
theorem startBuildBoxAsync_not_safe_on_start_failure :
    ¬ (((startBuildBoxAsync envStartFails maintenanceOfflineBox).1.temporarilyOffline = false ∧
          (startBuildBoxAsync envStartFails maintenanceOfflineBox).1.agentConnected = true) ∨
        (startBuildBoxAsync envStartFails maintenanceOfflineBox).1.temporarilyOffline = true) := by
  decide

/-- C2 amended: a failed compute start request makes only `startBuildBox`
return early (the power state is left unchanged, `waitForStatus` and the
settle delay are skipped); `startBuildBoxAsync` itself continues with the
agent check and the final toggle, whose guard is only the maintenance flag —
so whenever the toggle requests succeed the transition ends with
`temporarilyOffline = false`, whether or not the agent is connected. -/
theorem startBuildBoxAsync_amended
    (env : Env) (s : NodeState) (htoggle : env.toggleSucceeds = true) :
    (startBuildBoxAsync env s).1.temporarilyOffline = false ∧
      (env.startSucceeds = false →
        (startBuildBoxAsync env s).1.running = s.running) := by
  revert htoggle
  revert env s
  decide

/-- Witness for `startBuildBoxAsync_amended` at the C2 scenario. -/
theorem startBuildBoxAsync_amended_witness :
    (startBuildBoxAsync envStartFails maintenanceOfflineBox).1.temporarilyOffline = false ∧
      (envStartFails.startSucceeds = false →
        (startBuildBoxAsync envStartFails maintenanceOfflineBox).1.running =
          maintenanceOfflineBox.running) :=
  startBuildBoxAsync_amended envStartFails maintenanceOfflineBox (by decide)

/-- C5 counterexample: on an idle running box whose maintenance-toggle
request fails, `stopBuildBoxAsync` still issues the stop command in the same
cycle, and the node's `temporarilyOffline` flag was never set — the
orchestration advances past the failed toggle step because the error
returned by `toggleNodeStatus` is discarded. -/
theorem stopBuildBoxAsync_stops_despite_toggle_failure :
    Command.stop ∈ (stopBuildBoxAsync envToggleFails idleRunningBox).2 ∧
      envToggleFails.toggleSucceeds = false ∧
      (stopBuildBoxAsync envToggleFails idleRunningBox).1.temporarilyOffline = false := by
  decide

/-- C5 amended: a stop command is issued only for an idle node whose
instance the compute plane reports RUNNING, and when the node was not
already in maintenance mode the toggle request is issued before the stop —
but the toggle's result is ignored, so a toggle failure does not prevent the
stop from being issued in the same cycle. -/
theorem stopBuildBoxAsync_amended
    (env : Env) (s : NodeState)
    (hstop : Command.stop ∈ (stopBuildBoxAsync env s).2) :
    s.idle = true ∧ env.statusKnown = true ∧ s.running = true ∧
      (s.temporarilyOffline = true ∨
        (stopBuildBoxAsync env s).2 = [Command.toggle, Command.stop]) := by
  revert hstop
  revert env s
  decide

/-- Witness for `stopBuildBoxAsync_amended` at the C5 scenario. -/
theorem stopBuildBoxAsync_amended_witness :
    idleRunningBox.idle = true ∧ envToggleFails.statusKnown = true ∧
      idleRunningBox.running = true ∧
      (idleRunningBox.temporarilyOffline = true ∨
        (stopBuildBoxAsync envToggleFails idleRunningBox).2 =
          [Command.toggle, Command.stop]) :=
  stopBuildBoxAsync_amended envToggleFails idleRunningBox (by decide)

/-- C6: the take-offline transition is a no-op for a node whose registration
state reports `idle = false` — no command at all is issued and the state is
untouched. -/
theorem stopBuildBoxAsync_noop_of_not_idle
    (env : Env) (s : NodeState) (h : s.idle = false) :
    stopBuildBoxAsync env s = (s, []) := by
  revert h
  revert env s
  decide

/-- Witness for `stopBuildBoxAsync_noop_of_not_idle`: a busy box is left
untouched by scale-down. -/
theorem stopBuildBoxAsync_noop_of_not_idle_witness :
    stopBuildBoxAsync envToggleFails maintenanceOfflineBox =
      (maintenanceOfflineBox, []) :=
  stopBuildBoxAsync_noop_of_not_idle envToggleFails maintenanceOfflineBox (by decide)

/-- C7: `ensureBuildBoxIsNotRunning` issues a stop command only when
`isBuildBoxRunning` holds, i.e. only when the compute get-status query
succeeded and reported the instance RUNNING — never for a node already in a
stopped power state (and never when the status is unknown). -/
theorem ensure_stop_only_when_reported_running
    (env : Env) (s : NodeState)
    (h : Command.stop ∈ (ensureBuildBoxIsNotRunning env s).2) :
    isBuildBoxRunning env s = true ∧ env.statusKnown = true ∧ s.running = true := by
  revert h
  revert env s
  decide

/-- Witness for `ensure_stop_only_when_reported_running`. -/
theorem ensure_stop_only_when_reported_running_witness :
    isBuildBoxRunning envToggleFails idleRunningBox = true ∧
      envToggleFails.statusKnown = true ∧ idleRunningBox.running = true :=
  ensure_stop_only_when_reported_running envToggleFails idleRunningBox (by decide)

/-- C4: `launchNodeAgent` does NOT always return within the 120 s timeout
plus one 10 s retry interval — it can fail to return at all.  With instant
checks, a first successful check at iteration 11 returns at t = 110; but
when that same check takes 15 s (begun at t = 110, completing true at
t = 125, after the timer fired), the goroutine exits through the buffered
`onlineChannel` while the timeout branch is blocked forever on the
unbuffered `quit` channel, and `launchNodeAgent` never returns. -/
theorem launchNodeAgent_can_deadlock :
    launchNodeAgentResult deadlockConnected deadlockDelay = none ∧
      launchStart deadlockDelay 11 = 110 ∧
      launchStart deadlockDelay 11 + deadlockDelay 11 = 125 ∧
      launchNodeAgentResult deadlockConnected (fun _ => 0) = some 110 := by
  decide

/-- Shared helper: the scan launches one task per offline node until the
countdown is exhausted, so the launch count is the minimum of the countdown
and the number of offline pool members. -/
theorem startBuildBoxesLoop_eq_min (offline : String → Bool) :
    ∀ (pool : List String) (needed : Int), 1 ≤ needed →
      startBuildBoxesLoop offline pool needed =
        min needed.toNat (pool.countP offline) := by
  intro pool
  induction pool with
  | nil =>
    intro needed h
    simp [startBuildBoxesLoop]
  | cons b rest ih =>
    intro needed h
    cases hb : offline b with
    | true =>
      simp only [startBuildBoxesLoop, hb, if_true, List.countP_cons]
      by_cases h1 : needed - 1 ≤ 0
      · rw [if_pos h1]
        omega
      · rw [if_neg h1, ih (needed - 1) (by omega)]
        omega
    | false =>
      have h2 : ¬ needed ≤ 0 := by omega
      simp only [startBuildBoxesLoop, hb, Bool.false_eq_true, if_false,
        List.countP_cons]
      rw [if_neg h2, ih needed h]
      omega

/-- C8: with a non-empty queue (`q ≥ 1`, `w ≥ 1`, so the countdown starts at
`n = ceil(q/w) ≥ 1`), a scale-up pass over any scan order of the pool
launches exactly `min n (number of nodes reported offline)` bring-online
tasks: the countdown is decremented once per launch and the scan stops as
soon as it reaches zero, and exhausting the pool first merely ends the scan
(the "No more build boxes available" path), launching one task per offline
node. -/
theorem startBuildBoxes_launches_min (offline : String → Bool) (pool : List String)
    (q w : Nat) (hq : 1 ≤ q) (hw : 1 ≤ w) :
    startBuildBoxes offline pool q w =
      min (calculateNumberOfBoxesToStart q w) (pool.countP offline) := by
  have h1 : 1 ≤ calculateNumberOfBoxesToStart q w := one_le_calc q w hq hw
  unfold startBuildBoxes
  rw [startBuildBoxesLoop_eq_min offline pool _ (by exact_mod_cast h1)]
  simp

/-- Witness for `startBuildBoxes_launches_min` at the claim's scenario:
queue 5, two workers per box, pool of three nodes all reported offline —
exactly 3 tasks are launched. -/
theorem startBuildBoxes_launches_min_witness :
    startBuildBoxes (fun _ => true) ["A", "B", "C"] 5 2 =
      min (calculateNumberOfBoxesToStart 5 2) ((["A", "B", "C"] : List String).countP (fun _ => true)) ∧
      startBuildBoxes (fun _ => true) ["A", "B", "C"] 5 2 = 3 :=
  ⟨startBuildBoxes_launches_min (fun _ => true) ["A", "B", "C"] 5 2 (by decide) (by decide),
    by decide⟩

/-- C9: over any finite observation trace (`none` = transient query error,
`some st` = reported power state), the status waiter returns exactly when
the target state is observed — query errors are skipped and retried, never
aborted on — and the status log lines it emits always differ from the
previously logged status (`List.Chain (· ≠ ·)` from the initial
`previousStatus`), so nothing is logged on a poll that repeats the last
observation. -/
theorem waitForStatus_spec (target : String) (trace : List (Option String)) :
    ∀ previousStatus : String,
      ((waitForStatus target trace previousStatus).isSome ↔ some target ∈ trace) ∧
        (∀ logs, waitForStatus target trace previousStatus = some logs →
          List.Chain (fun a b => a ≠ b) previousStatus logs) := by
  induction trace with
  | nil =>
    intro prev
    constructor
    · simp [waitForStatus]
    · intro logs hl
      simp [waitForStatus] at hl
  | cons obs rest ih =>
    intro prev
    cases obs with
    | none =>
      constructor
      · rw [show waitForStatus target (none :: rest) prev =
            waitForStatus target rest prev from rfl]
        simpa using (ih prev).1
      · intro logs hl
        rw [show waitForStatus target (none :: rest) prev =
            waitForStatus target rest prev from rfl] at hl
        exact (ih prev).2 logs hl
    | some st =>
      by_cases hst : st = target
      · subst hst
        constructor
        · simp [waitForStatus]
        · intro logs hl
          have hstep : waitForStatus st (some st :: rest) prev =
              some (if prev ≠ st then [st] else []) := by
            simp [waitForStatus]
          rw [hstep] at hl
          have hlogs := (Option.some.inj hl).symm
          subst hlogs
          by_cases hp : prev = st
          · rw [if_neg (by simp [hp])]
            exact List.Chain.nil
          · rw [if_pos hp]
            exact List.Chain.cons hp List.Chain.nil
      · have hunfold : waitForStatus target (some st :: rest) prev =
            (waitForStatus target rest st).map
              (fun tail => (if prev ≠ st then [st] else []) ++ tail) := by
          simp [waitForStatus, hst]
        have hts : ¬ target = st := fun heq => hst heq.symm
        have hmem : (some target ∈ some st :: rest) ↔ some target ∈ rest := by
          simp [List.mem_cons, hts]
        constructor
        · rw [hunfold, hmem]
          cases hrec : waitForStatus target rest st with
          | none =>
            have h1 := (ih st).1
            rw [hrec] at h1
            simpa using h1
          | some tail =>
            have h1 := (ih st).1
            rw [hrec] at h1
            simpa using h1
        · intro logs hl
          rw [hunfold] at hl
          rcases Option.map_eq_some'.mp hl with ⟨tail, htail, hlogs⟩
          have hchain : List.Chain (fun a b => a ≠ b) st tail := (ih st).2 tail htail
          subst hlogs
          by_cases hp : prev = st
          · rw [if_neg (by simp [hp]), List.nil_append, hp]
            exact hchain
          · rw [if_pos hp, List.singleton_append]
            exact List.Chain.cons hp hchain

/-- Witness for `waitForStatus_spec` on a concrete trace: STOPPED is
observed, a query error is retried, a repeat of STOPPED goes unlogged, and
the waiter returns on RUNNING having logged STOPPED then RUNNING. -/
theorem waitForStatus_spec_witness :
    (waitForStatus "RUNNING" [some "STOPPED", none, some "STOPPED", some "RUNNING"] "").isSome ∧
      List.Chain (fun a b => a ≠ b) "" ["STOPPED", "RUNNING"] :=
  ⟨(waitForStatus_spec "RUNNING" [some "STOPPED", none, some "STOPPED", some "RUNNING"] "").1.mpr
      (by decide),
    (waitForStatus_spec "RUNNING" [some "STOPPED", none, some "STOPPED", some "RUNNING"] "").2
      ["STOPPED", "RUNNING"] (by decide)⟩

/-- C10: the `workersPerBuildBox` flag has no effect: line 51 dereferences
the pointer returned by `flag.Int` before line 53 runs `flag.Parse()`, so
the package variable keeps the compile-time default 2 for every command
line, and the capacity computation always divides by 2 (yielding
`ceil(q/2)`). -/
theorem workersPerBuildBox_flag_is_inert (supplied : Option Int) (q : Nat) :
    workersPerBuildBoxAfterStartup supplied = 2 ∧
      calculateNumberOfBoxesToStart q (workersPerBuildBoxAfterStartup supplied).toNat =
        q ⌈/⌉ 2 := by
  refine ⟨rfl, ?_⟩
  have h2 : (workersPerBuildBoxAfterStartup supplied).toNat = 2 := rfl
  rw [h2]
  exact calc_ceilDiv_aux q 2 (by decide)

end AutoScaler
